import Mathlib

/-!
Verification development for the fetch-web-demo medical diagnostics front end.

The repository is browser JavaScript.  The definitions below are a shallow
embedding of the parts of the source the claims are about:

* the connectivity prober and its error classification
  (`RealBreastDensityAPI.testConnectivity`, `handleConnectivityError`,
  `isSSLError`, `isCORSError`);
* the hybrid real/mock client (`HybridBreastDensityAPI.initializeAPIMode`,
  `analyzeBreastDensity`, `generateMockResponse`);
* the real API client's validation and three-strategy request loop
  (`RealBreastDensityAPI.analyzeBreastDensity`, `processResponse`);
* the request store (`StorageManager.setItem/getItem`,
  `RequestStorage.saveRequest/getRequest/updateRequestStatus`);
* the mock processing pipeline (`MedicalApp.createRequest`,
  `startMockProcessing`, `completeRequest`, sample-data generation);
* the mock report generator (`MockAPI.generateMedicalReport` /
  `generateDiagnosticReport`).

Modelling conventions: promise rejection / thrown JS exceptions are
`Except`; the browser fetch transport is an explicit parameter recording,
per strategy, whether fetch resolves (and with what response) or rejects
(and with what error); `Math.random()` draws are explicit rational
parameters in `[0, 1)`; `Date` values are explicit string/number
parameters.  JS numbers that the relevant code only ever treats as
integers (sizes, HTTP statuses, counters) are `Nat`.
-/

/-! ## JS string primitives

`String.prototype.includes` and `String.prototype.toUpperCase` (ASCII, which
is all the source's patterns use), modelled on the character list. -/

/-- Does the second list occur at the head of the first?
(the inner step of JS `includes`). -/
def charsStartsWith : List Char → List Char → Bool
  | _, [] => true
  | [], _ :: _ => false
  | c :: cs, p :: ps => p == c && charsStartsWith cs ps

/-- Does `pat` occur contiguously anywhere in `s`? -/
def charsHasSub (s pat : List Char) : Bool :=
  match s with
  | [] => pat.isEmpty
  | _ :: tl => charsStartsWith s pat || charsHasSub tl pat

/-- Model of JS `s.includes(pat)`. -/
def jsIncludes (s pat : String) : Bool :=
  charsHasSub s.data pat.data

/-- Model of JS `s.toUpperCase()` on ASCII data, character by character. -/
def toUpperCase (s : String) : String :=
  ⟨s.data.map Char.toUpper⟩

/-! ## Connectivity prober (`RealBreastDensityAPI`, `src/unnamed/part_003`)

`ConnResult` is the object literal `testConnectivity` and
`handleConnectivityError` return; absent boolean fields are `false`,
absent string/number fields are `none`. -/

structure ConnResult where
  success : Bool
  available : Bool
  error : Option String := none
  sslError : Bool := false
  corsError : Bool := false
  needsSSLFix : Bool := false
  needsServerFix : Bool := false
  status : Option Nat := none
  strategy : Option String := none
deriving Repr, DecidableEq

/-- The `sslErrorPatterns` array of `isSSLError`. -/
def sslErrorPatterns : List String :=
  ["ERR_CERT_AUTHORITY_INVALID", "ERR_CERT_COMMON_NAME_INVALID",
   "ERR_CERT_DATE_INVALID", "ERR_SSL_PROTOCOL_ERROR", "ERR_CERT_INVALID",
   "certificate", "SSL", "TLS", "CERT_", "net::ERR_CERT"]

/-- The `corsErrorPatterns` array of `isCORSError`. -/
def corsErrorPatterns : List String :=
  ["CORS", "Access-Control-Allow-Origin", "Cross-Origin Request Blocked",
   "blocked by CORS policy", "No \x27Access-Control-Allow-Origin\x27 header"]

/-- `RealBreastDensityAPI.isSSLError`: both the message and each pattern are
upper-cased before the containment test. -/
def isSSLError (msg : String) : Bool :=
  sslErrorPatterns.any fun p => jsIncludes (toUpperCase msg) (toUpperCase p)

/-- `RealBreastDensityAPI.isCORSError`: case-sensitive containment test. -/
def isCORSError (msg : String) : Bool :=
  corsErrorPatterns.any fun p => jsIncludes msg p

/-- `RealBreastDensityAPI.handleConnectivityError` (classification only; the
`sslErrorDetected` flag and the one-time toast are UI side effects that do
not feed back into the returned object). -/
def handleConnectivityError (msg : String) : ConnResult :=
  if isSSLError msg then
    { success := false, error := some "SSL Certificate Error - User guidance provided",
      available := false, sslError := true, needsSSLFix := true }
  else if isCORSError msg then
    { success := false, error := some "CORS configuration error on server",
      available := true, corsError := true, needsServerFix := true }
  else
    { success := false, error := some msg, available := false }

/-- Outcome of one browser `fetch` call: the promise either resolves with a
response (here: its HTTP status) or rejects with an error message. -/
inductive FetchResult where
  | resolved (status : Nat)
  | rejected (msg : String)
deriving Repr, DecidableEq

/-- The transport behaviour the prober runs against: the outcome of the
`cors`-mode GET of `/health` and of the `no-cors`-mode GET of the origin. -/
structure ProbeTransport where
  corsHealth : FetchResult
  noCorsRoot : FetchResult
deriving Repr, DecidableEq

/-- `RealBreastDensityAPI.testWithCORS`: a resolved fetch yields
`{success: true, available: status < 500, strategy: 'cors'}`; a rejected
fetch (including the 5s abort) propagates as a thrown error. -/
def testWithCORS (t : ProbeTransport) : Except String ConnResult :=
  match t.corsHealth with
  | .rejected m => .error m
  | .resolved st =>
      .ok { success := true, available := decide (st < 500),
            status := some st, strategy := some "cors" }

/-- `RealBreastDensityAPI.testWithNoCORS`: any resolved (opaque) response
counts as reachable. -/
def testWithNoCORS (t : ProbeTransport) : Except String ConnResult :=
  match t.noCorsRoot with
  | .rejected m => .error m
  | .resolved _ =>
      .ok { success := true, available := true,
            status := some 0, strategy := some "no-cors" }

/-- `RealBreastDensityAPI.testWithProxy`: unconditionally throws. -/
def testWithProxy : Except String ConnResult :=
  .error "Proxy strategy not implemented"

/-- Third loop iteration of `testConnectivity`: a thrown error here is the
last strategy, so it is routed to `handleConnectivityError`; a returned
non-success falls through to the trailing fallback object. -/
def connStep3 : Except String ConnResult :=
  match testWithProxy with
  | .ok r =>
      if r.success then .ok r
      else .ok { success := false, error := some "All connection strategies failed",
                 available := false }
  | .error e => .ok (handleConnectivityError e)

/-- Second loop iteration of `testConnectivity`: a thrown error is caught
and the loop advances (it is not the last strategy). -/
def connStep2 (t : ProbeTransport) : Except String ConnResult :=
  match testWithNoCORS t with
  | .ok r => if r.success then .ok r else connStep3
  | .error _ => connStep3

/-- `RealBreastDensityAPI.testConnectivity`: the strategy loop over
`testWithCORS`, `testWithNoCORS`, `testWithProxy`.  The `Except` result
records whether the function itself throws to its caller. -/
def testConnectivity (t : ProbeTransport) : Except String ConnResult :=
  match testWithCORS t with
  | .ok r => if r.success then .ok r else connStep2 t
  | .error _ => connStep2 t

/-- Does an `Except` computation resolve rather than throw? -/
def resolvesOk : Except String ConnResult → Bool
  | .ok _ => true
  | .error _ => false

/-- A transport on which every fetch rejects with a certificate error, the
scenario of the spec's prober test. -/
def certFailTransport : ProbeTransport :=
  { corsHealth := .rejected "TypeError: Failed to fetch (net::ERR_CERT_AUTHORITY_INVALID)",
    noCorsRoot := .rejected "TypeError: Failed to fetch (net::ERR_CERT_AUTHORITY_INVALID)" }

deriving instance DecidableEq for Except

/-! ## Hybrid client initialization (`HybridBreastDensityAPI.initializeAPIMode`)

The shared mutable state is the `useRealAPI` field (`null` until decided)
plus an instrumentation counter of how many times `testConnectivity` has
been started.  `initializeAPIMode` suspends exactly once, at
`await this.realAPI.testConnectivity()`; the concurrency model below makes
that suspension point explicit. -/

structure HState where
  useRealAPI : Option Bool
  probeCount : Nat
deriving Repr, DecidableEq

/-- The decision `initializeAPIMode` commits to `this.useRealAPI` from a
connectivity result: `success` ⇒ real API; the `needsSSLFix`, `corsError`
and residual branches all choose the mock mode. -/
def apiModeDecision (c : ConnResult) : Bool :=
  if c.success then true
  else if c.needsSSLFix then false
  else if c.corsError then false
  else false

/-- `HybridBreastDensityAPI.initializeAPIMode` run sequentially (no
interleaved second caller): returns the decided boolean and the new state.
A throwing probe is absorbed by the surrounding `catch` (mock mode). -/
def initializeAPIMode (t : ProbeTransport) (s : HState) : Bool × HState :=
  match s.useRealAPI with
  | some b => (b, s)
  | none =>
      let s1 : HState := { s with probeCount := s.probeCount + 1 }
      match testConnectivity t with
      | .ok c =>
          let b := apiModeDecision c
          (b, { s1 with useRealAPI := some b })
      | .error _ => (false, { s1 with useRealAPI := some false })

/-- Where a single `initializeAPIMode` call stands: not yet run, suspended
at its `await` on `testConnectivity`, or returned with a boolean. -/
inductive TaskState where
  | notStarted
  | awaitingProbe
  | done (b : Bool)
deriving Repr, DecidableEq

/-- Two interleaved `initializeAPIMode` calls over the one shared state. -/
structure InitRace where
  shared : HState
  taskA : TaskState
  taskB : TaskState
deriving Repr, DecidableEq

/-- First half of `initializeAPIMode`, up to its suspension point: the
`useRealAPI === null` test, and if null, starting a probe. -/
def startCall (s : HState) : TaskState × HState :=
  match s.useRealAPI with
  | some b => (.done b, s)
  | none => (.awaitingProbe, { s with probeCount := s.probeCount + 1 })

/-- Second half of `initializeAPIMode`, after its own probe resolves:
commit the decision to the shared `useRealAPI` and return it. -/
def resumeCall (t : ProbeTransport) (s : HState) : TaskState × HState :=
  match testConnectivity t with
  | .ok c =>
      let b := apiModeDecision c
      (.done b, { s with useRealAPI := some b })
  | .error _ => (.done false, { s with useRealAPI := some false })

/-- Scheduler events: start caller A or B, or deliver A's or B's probe
result (only meaningful in the matching task state; otherwise a no-op). -/
inductive RaceEv where
  | startA | startB | resolveA | resolveB
deriving Repr, DecidableEq

/-- One event-loop step of the two-caller interleaving. -/
def raceStep (t : ProbeTransport) (sys : InitRace) : RaceEv → InitRace
  | .startA =>
      match sys.taskA with
      | .notStarted =>
          let p := startCall sys.shared
          { sys with taskA := p.1, shared := p.2 }
      | _ => sys
  | .startB =>
      match sys.taskB with
      | .notStarted =>
          let p := startCall sys.shared
          { sys with taskB := p.1, shared := p.2 }
      | _ => sys
  | .resolveA =>
      match sys.taskA with
      | .awaitingProbe =>
          let p := resumeCall t sys.shared
          { sys with taskA := p.1, shared := p.2 }
      | _ => sys
  | .resolveB =>
      match sys.taskB with
      | .awaitingProbe =>
          let p := resumeCall t sys.shared
          { sys with taskB := p.1, shared := p.2 }
      | _ => sys

/-- Run a schedule of event-loop steps. -/
def runRace (t : ProbeTransport) (evs : List RaceEv) (sys : InitRace) : InitRace :=
  evs.foldl (raceStep t) sys

/-- A freshly constructed hybrid client: `useRealAPI = null`, no probes. -/
def freshRace : InitRace :=
  { shared := { useRealAPI := none, probeCount := 0 },
    taskA := .notStarted, taskB := .notStarted }

/-- The schedule of the claim: caller B starts before caller A's probe has
resolved. -/
def concurrentSchedule : List RaceEv :=
  [.startA, .startB, .resolveA, .resolveB]

/-! ## Mock report generator (`MockAPI.generateDiagnosticReport`, `src/js/mock-api.js`)

`Math.random()` draws are the fields of `Randoms`, each in `[0,1)`;
locale-dependent `Date` renderings are the fields of `DateEnv`.
`Number.prototype.toFixed` is modelled exactly on rationals. -/

/-- The request descriptor the generator reads (`id`, `filename`,
`timestamp`, and optionally `status`; callers from the hybrid client pass
no status). -/
structure ReportRequest where
  id : String
  filename : String
  timestamp : String
  status : Option String := none
deriving Repr, DecidableEq

/-- One `Math.random()` draw per dynamic value of
`generateDiagnosticReport`, in source order. -/
structure Randoms where
  benign : ℚ
  malignant : ℚ
  inflammatory : ℚ
  artefactual : ℚ
  nodule : ℚ
  followUp : ℚ
  category : ℚ
  tissue : ℚ
  symmetry : ℚ
  quality : ℚ
  positioning : ℚ
  artifacts : ℚ
  processing : ℚ
deriving Repr, DecidableEq

/-- Every draw lies in `[0, 1)`, the contract of `Math.random()`. -/
def RandomsInRange (r : Randoms) : Prop :=
  (0 ≤ r.benign ∧ r.benign < 1) ∧ (0 ≤ r.malignant ∧ r.malignant < 1) ∧
  (0 ≤ r.inflammatory ∧ r.inflammatory < 1) ∧ (0 ≤ r.artefactual ∧ r.artefactual < 1) ∧
  (0 ≤ r.nodule ∧ r.nodule < 1) ∧ (0 ≤ r.followUp ∧ r.followUp < 1) ∧
  (0 ≤ r.category ∧ r.category < 1) ∧ (0 ≤ r.tissue ∧ r.tissue < 1) ∧
  (0 ≤ r.symmetry ∧ r.symmetry < 1) ∧ (0 ≤ r.quality ∧ r.quality < 1) ∧
  (0 ≤ r.positioning ∧ r.positioning < 1) ∧ (0 ≤ r.artifacts ∧ r.artifacts < 1) ∧
  (0 ≤ r.processing ∧ r.processing < 1)

/-- The locale-rendered date strings the generator interpolates. -/
structure DateEnv where
  reportDate : String
  currentDate : String
  currentTime : String
  nowIso : String
deriving Repr, DecidableEq

/-- The value `x.toFixed(4)` denotes, as a rational: round half-up at the
fourth decimal. -/
def round4 (x : ℚ) : ℚ :=
  (⌊x * 10000 + 1/2⌋ : ℚ) / 10000

/-- Left-pad a fractional part to four digits. -/
def pad4 (n : Nat) : String :=
  if n < 10 then "000" ++ toString n
  else if n < 100 then "00" ++ toString n
  else if n < 1000 then "0" ++ toString n
  else toString n

/-- Model of JS `x.toFixed(4)` for nonnegative `x`. -/
def toFixed4 (x : ℚ) : String :=
  let n := ⌊x * 10000 + 1/2⌋
  toString (n / 10000) ++ "." ++ pad4 (n % 10000).toNat

/-- Model of JS `x.toFixed(1)` for nonnegative `x`. -/
def toFixed1 (x : ℚ) : String :=
  let n := ⌊x * 10 + 1/2⌋
  toString (n / 10) ++ "." ++ toString (n % 10).toNat

/-- Model of JS `Math.floor(q * m)` for a draw `q` in `[0,1)`. -/
def jsFloorScaled (q : ℚ) (m : Nat) : Nat :=
  (⌊q * m⌋).toNat

/-- `probabilityScores.benign` before rendering: `Math.random() * 0.15 + 0.85`. -/
def benignRaw (r : Randoms) : ℚ := r.benign * 0.15 + 0.85

/-- `probabilityScores.malignant` before rendering: `Math.random() * 0.3 + 0.7`. -/
def malignantRaw (r : Randoms) : ℚ := r.malignant * 0.3 + 0.7

/-- `probabilityScores.inflammatory` before rendering: `Math.random() * 0.1`. -/
def inflammatoryRaw (r : Randoms) : ℚ := r.inflammatory * 0.1

/-- `probabilityScores.artefactual` before rendering: `Math.random() * 0.05`. -/
def artefactualRaw (r : Randoms) : ℚ := r.artefactual * 0.05

/-- `noduleSize`: drawn by the source but unused by the diagnostic template. -/
def noduleSize (r : Randoms) : Nat := jsFloorScaled r.nodule 15 + 8

/-- `followUpMonths`: drawn by the source but unused by the diagnostic template. -/
def followUpMonths (r : Randoms) : Nat := if r.followUp > 1/2 then 3 else 6

/-- The four BI-RADS density strings indexed by `Math.floor(Math.random()*4)`
(the out-of-range default is unreachable for draws in `[0,1)`). -/
def densityCategoryList : List String :=
  ["A - Almost entirely fatty", "B - Scattered fibroglandular densities",
   "C - Heterogeneously dense", "D - Extremely dense"]

/-- Concatenation of a list of string segments. -/
def strConcat : List String → String
  | [] => ""
  | s :: rest => s ++ strConcat rest

/-- `pat` occurs contiguously inside `s`. -/
def StrContains (s pat : String) : Prop :=
  ∃ a b : List Char, s.data = a ++ pat.data ++ b

/-- The body of `MockAPI.generateDiagnosticReport` as the ordered list of
literal template runs and interpolated values.  Concatenated in order it is
exactly the template string; every markdown section header is kept as a
segment of its own. -/
def reportSegments (req : ReportRequest) (r : Randoms) (env : DateEnv) : List String :=
  let benignStr := toFixed4 (benignRaw r)
  let malignantStr := toFixed4 (malignantRaw r)
  let inflammatoryStr := toFixed4 (inflammatoryRaw r)
  let artefactualStr := toFixed4 (artefactualRaw r)
  let categoryStr := densityCategoryList.getD (jsFloorScaled r.category 4) ""
  let tissueStr := toString (jsFloorScaled r.tissue 40 + 20)
  let symmetryStr :=
    if r.symmetry > 0.3 then "Symmetric density distribution" else "Mild asymmetric density noted"
  let pctStr := toFixed1 (round4 (benignRaw r) * 100)
  let supplementalStr :=
    if round4 (benignRaw r) < 0.9 then "Consider breast ultrasound or MRI if clinically indicated"
    else "Standard mammographic screening sufficient at this time"
  let qualityStr :=
    if r.quality > 0.2 then "Adequate for diagnostic interpretation"
    else "Good technical quality with optimal positioning"
  let positioningStr :=
    if r.positioning > 0.15 then "Appropriate" else "Adequate with minor positioning considerations"
  let artifactsStr :=
    if r.artifacts > 0.8 then "Minimal motion artifact noted" else "No significant artifacts identified"
  let procStr := toString (jsFloorScaled r.processing 45 + 15)
  let statusStr := if req.status == some "completed" then "Final Report" else "Preliminary Analysis"
  ["# Medical Imaging Report",
   "\n\n",
   "## Patient Information",
   "\n- **Report ID:** ", req.id,
   "\n- **Study Date:** ", env.reportDate,
   "\n- **Report Generated:** ", env.currentDate, " at ", env.currentTime,
   "\n- **Image File:** ", req.filename,
   "\n- **Analysis Method:** AI-Assisted Breast Density Classification\n\n",
   "## Model Details",
   "\n\n**Model Name:** Deep Convolutional Neural Network (DCNN) for Breast Density Classification\n**Model Output:** Probabilistic scores across four categories: Benign (", benignStr,
   "), Malignant (", malignantStr,
   "), Inflammatory (", inflammatoryStr,
   "), and Artefactual (", artefactualStr,
   ")\n\n",
   "## Findings",
   "\n**Key Observation 1: High probability of Benign Classification**\n- The model assigns a high probability score (", benignStr,
   ") to the category \"Benign,\" indicating that the breast tissue characteristics, as analyzed by DCNN, are most consistent with normal fibroglandular tissue in this case.\n- This finding suggests minimal risk for malignancy based on imaging features; however, clinical correlation and further evaluation remain crucial, as per BI-RADS guidelines (1).\n- **Key Observation 2: Elevated probability consideration**\n- Despite the dominant benign classification, the model also returns a notable score (", malignantStr,
   ") for tissue density assessment, indicating that some breast tissue features require careful consideration for screening recommendations.\n- This elevated density probability mandates careful consideration of supplemental screening modalities, as dense breast tissue can mask potential lesions (2).\n**Overall Assessment:**\n- Given the model\x27s output, this mammographic study is categorized primarily as showing normal breast tissue composition but with density characteristics that warrant ongoing surveillance. This classification reflects the complexity of radiological interpretation in breast imaging and necessitates appropriate follow-up recommendations.\n\n",
   "## Clinical Context",
   "\n**Breast Density Category:** ", categoryStr,
   "\n**Tissue Composition:** Fibroglandular tissue comprises approximately ", tissueStr,
   "% of breast volume\n**Bilateral Symmetry:** ", symmetryStr,
   "\n\n",
   "## Impression/Conclusion",
   "\n**Summary of Key Observations:** The DCNN-based analysis indicates normal breast tissue composition (", pctStr,
   "% probability) with appropriate density classification for patient age and demographics.\n**Clinical Significance and Potential Implications:**\n- Studies have shown that accurate density assessment is crucial for determining appropriate screening intervals and supplemental imaging needs (3).\n- The model\x27s classification supports standard screening protocols while highlighting the importance of individualized risk assessment based on breast density patterns (4).\n**Screening Recommendations:** Current imaging demonstrates findings appropriate for routine screening mammography with consideration of breast density in determining screening strategy.\n**Recommendations for Further Evaluation/Follow-up:**\n- Continue routine annual screening mammography as clinically indicated (1).\n- Consider discussion of supplemental screening options if breast density warrants additional evaluation (5).\n\n",
   "## Recommendations",
   "\n**Screening Protocol:** Annual bilateral mammography recommended per current guidelines\n**Supplemental Imaging:** ", supplementalStr,
   "\n**Clinical Follow-up:** Routine clinical breast examination and patient education regarding breast self-awareness\n**Next Study:** Recommend follow-up mammography in 12 months unless clinical changes warrant earlier evaluation\n\n",
   "## Technical Quality Assessment",
   "\n**Image Quality:** ", qualityStr,
   "\n**Positioning:** ", positioningStr,
   "\n**Compression:** Adequate breast compression achieved\n**Artifacts:** ", artifactsStr,
   "\n\n",
   "## Limitations",
   "\n**Factors Limiting Interpretation:** This report relies on AI-assisted analysis and should be correlated with clinical findings and radiologist interpretation.\n**Inherent Model Limitations:** The DCNN\x27s performance may be affected by image quality, positioning, and individual patient factors that require clinical correlation.\n**Clinical Context Required:** Automated classification should always be interpreted within the context of patient history, physical examination, and clinical risk factors.\n\n",
   "## Quality Assurance",
   "\n**Algorithm Version:** DCNN v2.1.3\n**Processing Time:** ", procStr,
   " seconds\n**Confidence Metrics:** All quality parameters within acceptable ranges\n**Validation Status:** Model performance validated on diverse dataset representative of screening population\n\n",
   "## References",
   "\n1. D\x27Orsi CJ, et al. (2013). ACR BI-RADS Atlas, Breast Imaging Reporting and Data System. Reston, VA: American College of Radiology.\n2. Boyd NF, et al. (2007). Mammographic breast density as an intermediate phenotype for breast cancer. Lancet Oncol, 8(12), 1072-1081.\n3. Kerlikowske K, et al. (2010). Identifying women with dense breasts at high risk for interval cancer: a cohort study. Ann Intern Med, 152(1), 10-17.\n4. McCormack VA, et al. (2006). Breast density and parenchymal patterns as markers of breast cancer risk: a meta-analysis. Cancer Epidemiol Biomarkers Prev, 15(6), 1159-1169.\n5. Berg WA, et al. (2012). Detection of breast cancer with addition of annual screening ultrasound or a single screening MRI to mammography in women with elevated breast cancer risk. JAMA, 307(13), 1394-1404.\n\n---\n\n**Report Status:** ", statusStr,
   "  \n**Generated:** ", env.currentDate, " ", env.currentTime,
   "  \n**Report ID:** ", req.id,
   "  \n**System:** Medical Diagnostics Platform v2.1.3\n\n*This report has been generated using AI-assisted analysis for demonstration purposes. In clinical practice, all AI-generated reports should be reviewed and validated by qualified medical professionals.*"]

/-- `MockAPI.generateDiagnosticReport`: the template with its dynamic
values filled in. -/
def generateDiagnosticReport (req : ReportRequest) (r : Randoms) (env : DateEnv) : String :=
  strConcat (reportSegments req r env)

/-- `MockAPI.generateMedicalReport`: the template chooser is hard-coded to
`generateDiagnosticReport` (the random choice among four templates is
commented out in the source). -/
def generateMedicalReport (req : ReportRequest) (r : Randoms) (env : DateEnv) : String :=
  generateDiagnosticReport req r env

/-- The markdown section headers of the diagnostic template. -/
def requiredHeaders : List String :=
  ["# Medical Imaging Report", "## Patient Information", "## Model Details",
   "## Findings", "## Clinical Context", "## Impression/Conclusion",
   "## Recommendations", "## Technical Quality Assessment", "## Limitations",
   "## Quality Assurance", "## References"]

/-! ## Real API client (`RealBreastDensityAPI.analyzeBreastDensity`)

The analysis POST transport records, per strategy, whether fetch resolves
or rejects.  A JS `Error` is a `(name, message)` pair (`fetch` aborts
reject with `name = 'AbortError'`).  The JSON/text body parsing of
`processResponse` is folded into the response record's fields. -/

structure JsError where
  name : String
  message : String
deriving Repr, DecidableEq

/-- A freshly constructed `new Error(msg)`. -/
def mkError (msg : String) : JsError :=
  { name := "Error", message := msg }

structure HttpResponse where
  ok : Bool
  status : Nat
  contentType : String
  /-- For a non-ok response: `errorDetails.message || errorDetails.error || errorText`. -/
  errorBodyMessage : String
  /-- For a JSON body: `jsonData.file_info?.message`. -/
  jsonFileInfoMessage : Option String
  /-- For a JSON body: `jsonData.request_metadata?.request_id`. -/
  jsonRequestId : Option String
  headerRequestId : Option String
  headerOriginalFilename : Option String
  headerGenerationTime : Option String
  headerModelName : Option String
  pdfSize : Nat
deriving Repr, DecidableEq

/-- Outcome of one analysis POST. -/
inductive PostResult where
  | resolved (resp : HttpResponse)
  | rejected (e : JsError)
deriving Repr, DecidableEq

/-- Per-strategy transport behaviour for the three analysis POSTs. -/
structure AnalyzeTransport where
  fullHeaders : PostResult
  minimalHeaders : PostResult
  noCors : PostResult
deriving Repr, DecidableEq

/-- The object a request strategy returns (`processResponse`'s result, or
the opaque `no-cors` object). -/
structure RealResult where
  success : Bool
  type : String
  requestId : String
  error : Option String := none
  originalFilename : Option String := none
  generationTime : String := ""
  modelName : String := ""
  pdfSize : Nat := 0
deriving Repr, DecidableEq

/-- `allowedTypes` of the validation phase (and of
`UploadModal.validateFile`). -/
def allowedTypes : List String :=
  ["image/jpeg", "image/jpg", "image/png", "application/dicom"]

/-- The `file` argument: absent, not a `File`/`Blob`, or a blob with an
optional name, a byte size and a declared mime type. -/
inductive FileInput where
  | noFile
  | invalidObject
  | blob (name : Option String) (size : Nat) (mime : String)
deriving Repr, DecidableEq

/-- `RealBreastDensityAPI.processResponse`. -/
def processResponse (resp : HttpResponse) (requestId : String)
    (fileName : Option String) (nowIso : String) : Except JsError RealResult :=
  if !resp.ok then
    .error (mkError ("API Error (" ++ toString resp.status ++ "): " ++ resp.errorBodyMessage))
  else if jsIncludes resp.contentType "application/pdf" then
    .ok { success := true, type := "pdf",
          requestId := resp.headerRequestId.getD requestId,
          originalFilename := resp.headerOriginalFilename <|> fileName,
          generationTime := resp.headerGenerationTime.getD nowIso,
          modelName := resp.headerModelName.getD "BreastDensityClassification",
          pdfSize := resp.pdfSize }
  else if jsIncludes resp.contentType "application/json" then
    .ok { success := false, type := "json",
          requestId := resp.jsonRequestId.getD requestId,
          error := some (resp.jsonFileInfoMessage.getD "No PDF file generated") }
  else
    .error (mkError ("Unexpected response type: " ++ resp.contentType))

/-- `makeRequestWithFullHeaders`: one fetch, then `processResponse`. -/
def makeRequestWithFullHeaders (t : AnalyzeTransport) (requestId : String)
    (fileName : Option String) (nowIso : String) : Except JsError RealResult :=
  match t.fullHeaders with
  | .rejected e => .error e
  | .resolved resp => processResponse resp requestId fileName nowIso

/-- `makeRequestWithMinimalHeaders`: one fetch, then `processResponse`. -/
def makeRequestWithMinimalHeaders (t : AnalyzeTransport) (requestId : String)
    (fileName : Option String) (nowIso : String) : Except JsError RealResult :=
  match t.minimalHeaders with
  | .rejected e => .error e
  | .resolved resp => processResponse resp requestId fileName nowIso

/-- `makeRequestWithNoCORS`: a resolved opaque response yields the fixed
non-success object. -/
def makeRequestWithNoCORS (t : AnalyzeTransport) (requestId : String) :
    Except JsError RealResult :=
  match t.noCors with
  | .rejected e => .error e
  | .resolved _ =>
      .ok { success := false, type := "no-cors", requestId := requestId,
            error := some "Response not readable in no-cors mode" }

/-- Third iteration of the request-strategy loop: a thrown error is the
last strategy's and propagates; a non-success return falls through to the
trailing `throw new Error('All request strategies failed')`.  The second
component counts fetches performed so far (three strategies have run). -/
def analyzeStep3 (t : AnalyzeTransport) (requestId : String) :
    Except JsError RealResult × Nat :=
  match makeRequestWithNoCORS t requestId with
  | .ok r =>
      if r.success then (.ok r, 3)
      else (.error (mkError "All request strategies failed"), 3)
  | .error e => (.error e, 3)

/-- Second iteration: a thrown error is caught and the loop advances. -/
def analyzeStep2 (t : AnalyzeTransport) (requestId : String)
    (fileName : Option String) (nowIso : String) : Except JsError RealResult × Nat :=
  match makeRequestWithMinimalHeaders t requestId fileName nowIso with
  | .ok r => if r.success then (.ok r, 2) else analyzeStep3 t requestId
  | .error _ => analyzeStep3 t requestId

/-- First iteration of the request-strategy loop. -/
def analyzeStrategyLoop (t : AnalyzeTransport) (requestId : String)
    (fileName : Option String) (nowIso : String) : Except JsError RealResult × Nat :=
  match makeRequestWithFullHeaders t requestId fileName nowIso with
  | .ok r => if r.success then (.ok r, 1) else analyzeStep2 t requestId fileName nowIso
  | .error _ => analyzeStep2 t requestId fileName nowIso

/-- The validation phase of `RealBreastDensityAPI.analyzeBreastDensity`
followed by the strategy loop; the count is how many fetches were
performed.  Note the mime-type check is guarded by `if (file.type)`: an
empty declared type skips it. -/
def validateAndRun (f : FileInput) (requestId : String) (t : AnalyzeTransport)
    (nowIso : String) : Except JsError RealResult × Nat :=
  match f with
  | .noFile => (.error (mkError "No file provided for analysis"), 0)
  | .invalidObject => (.error (mkError "Invalid file type - must be a File or Blob object"), 0)
  | .blob name size mime =>
      if size = 0 then (.error (mkError "File is empty or has no size"), 0)
      else if size > 50 * 1024 * 1024 then
        (.error (mkError "File size must be less than 50MB"), 0)
      else if mime ≠ "" then
        if mime ∈ allowedTypes then analyzeStrategyLoop t requestId name nowIso
        else (.error (mkError "Only JPEG, PNG, and DICOM files are supported"), 0)
      else analyzeStrategyLoop t requestId name nowIso

/-- The outer `catch` of `analyzeBreastDensity`: rewrap aborts, SSL, CORS
and network errors; rethrow anything else unchanged. -/
def rewrapError (e : JsError) : JsError :=
  if e.name = "AbortError" then
    mkError "Request timed out after 10 minutes. Medical imaging analysis may take longer than expected."
  else if isSSLError e.message then
    mkError "SSL Certificate error: Unable to verify server certificate. In production, ensure proper SSL configuration."
  else if isCORSError e.message then
    mkError "CORS error: Server has Access-Control-Allow-Origin configuration issues. This is a server-side problem."
  else if jsIncludes e.message "NetworkError" || jsIncludes e.message "Failed to fetch" then
    mkError "Network error: Unable to connect to analysis service. This may be due to network connectivity or server issues."
  else e

/-- `RealBreastDensityAPI.analyzeBreastDensity`: validation, the strategy
loop, and the outer catch. -/
def realAnalyzeBreastDensity (f : FileInput) (requestId : String)
    (t : AnalyzeTransport) (nowIso : String) : Except JsError RealResult × Nat :=
  match validateAndRun f requestId t nowIso with
  | (.ok r, n) => (.ok r, n)
  | (.error e, n) => (.error (rewrapError e), n)

/-- A transport on which every analysis POST rejects with the browser's
generic fetch failure. -/
def rejectAllTransport : AnalyzeTransport :=
  { fullHeaders := .rejected { name := "TypeError", message := "Failed to fetch" },
    minimalHeaders := .rejected { name := "TypeError", message := "Failed to fetch" },
    noCors := .rejected { name := "TypeError", message := "Failed to fetch" } }

/-! ## Hybrid analysis client (`HybridBreastDensityAPI.analyzeBreastDensity`) -/

/-- The `metadata` object of a hybrid result. -/
structure HybridMeta where
  originalFilename : Option String
  generationTime : String
  modelName : String
  size : Nat
  mockData : Bool := false
  error : Option String := none
deriving Repr, DecidableEq

/-- The object `HybridBreastDensityAPI.analyzeBreastDensity` resolves
with: a forwarded PDF result or a mock result. -/
structure HybridResult where
  success : Bool
  type : String
  requestId : String
  message : String
  report : Option String := none
  meta : HybridMeta
deriving Repr, DecidableEq

/-- `HybridBreastDensityAPI.generateMockResponse` (its `note` argument is
used only for logging).  `file?.name` defaults to `'unknown_file.jpg'` and
`file?.size` to `0`; the report is `MockAPI.generateMedicalReport` on a
fresh descriptor. -/
def generateMockResponse (f : FileInput) (requestId : String)
    (err : Option String) (rnd : Randoms) (env : DateEnv) : HybridResult :=
  let filename :=
    match f with
    | .blob (some n) _ _ => n
    | _ => "unknown_file.jpg"
  let fileSize :=
    match f with
    | .blob _ sz _ => sz
    | _ => 0
  { success := true, type := "mock", requestId := requestId,
    message := "Mock analysis completed (demo data)",
    report := some (generateMedicalReport
      { id := requestId, filename := filename, timestamp := env.nowIso } rnd env),
    meta := { originalFilename := some filename, generationTime := env.nowIso,
              modelName := "MockBreastDensityClassification", size := fileSize,
              mockData := true, error := err } }

/-- `HybridBreastDensityAPI.analyzeBreastDensity`: ensure initialization,
then either forward a real PDF result or fall back to
`generateMockResponse` — the `catch` around the real call swallows every
thrown error (validation errors included) into the mock fallback.  (The
PDF-blob caching side effect on the request store is not modelled: it does
not feed back into the returned value.) -/
def hybridAnalyzeBreastDensity (s : HState) (pt : ProbeTransport) (f : FileInput)
    (requestId : String) (t : AnalyzeTransport) (rnd : Randoms) (env : DateEnv) :
    Except JsError HybridResult × HState :=
  let p := initializeAPIMode pt s
  if p.1 then
    match (realAnalyzeBreastDensity f requestId t env.nowIso).1 with
    | .ok r =>
        if r.success && r.type == "pdf" then
          (.ok { success := true, type := "pdf", requestId := r.requestId,
                 message := "Analysis completed successfully",
                 meta := { originalFilename := r.originalFilename,
                           generationTime := r.generationTime,
                           modelName := r.modelName, size := r.pdfSize } }, p.2)
        else
          (.ok (generateMockResponse f requestId r.error rnd env), p.2)
    | .error e => (.ok (generateMockResponse f requestId (some e.message) rnd env), p.2)
  else
    (.ok (generateMockResponse f requestId none rnd env), p.2)

/-- The tag of a hybrid outcome (`none` when the call rejects). -/
def hybridOutcomeType : Except JsError HybridResult → Option String
  | .ok r => some r.type
  | .error _ => none

/-! ## Request store (`StorageManager` / `RequestStorage`, `src/js/storage.js`)

State for the single key the request list lives under
(`medical_requests_all_requests`).  `localStorage` holds
`JSON.stringify({value, timestamp, expires, version})`; for a
JSON-serializable value that serialization round-trips identically, so the
persisted envelope is modelled structurally.  The in-memory cache holds
the envelope object itself. -/

structure StoredData (α : Type) where
  value : α
  timestamp : Nat
  expires : Option Nat
  version : Nat
deriving Repr, DecidableEq

structure MgrState (α : Type) where
  cache : Option (StoredData α)
  store : Option (StoredData α)
  isAvailable : Bool
  now : Nat
deriving Repr, DecidableEq

/-- `StorageManager.isValidData`: expired data (an `expires` stamp in the
past) is invalid; a `null` stamp never expires. -/
def isValidData {α : Type} (now : Nat) (d : StoredData α) : Bool :=
  match d.expires with
  | none => true
  | some e => decide (now ≤ e)

/-- `StorageManager.setItem`: build the envelope and, when localStorage is
available, attempt the persistent write.  `writeOk` is the environmental
outcome of `localStorage.setItem`: `false` means it throws (quota
exceeded), which lands in the method's `catch` — the method returns
`false` and, the cache update coming after the write inside the `try`, the
cache is left untouched.  Otherwise the cache is updated and the method
returns `true`.  (`JSON.stringify` of the plain serializable records
stored here cannot itself throw.) -/
def setItem {α : Type} (s : MgrState α) (v : α) (expiresIn : Option Nat)
    (version : Nat) (writeOk : Bool) : Bool × MgrState α :=
  let data : StoredData α :=
    { value := v, timestamp := s.now,
      expires := expiresIn.map (fun e => s.now + e), version := version }
  if s.isAvailable then
    if writeOk then (true, { s with store := some data, cache := some data })
    else (false, s)
  else
    (true, { s with cache := some data })

/-- The localStorage half of `StorageManager.getItem`, reached when the
cache misses (an invalid cached entry has already been dropped). -/
def getItemStoreStep {α : Type} (s : MgrState α) (defaultValue : α) :
    α × MgrState α :=
  if s.isAvailable then
    match s.store with
    | some d =>
        if isValidData s.now d then (d.value, { s with cache := some d })
        else (defaultValue, { s with cache := none, store := none })
    | none => (defaultValue, s)
  else (defaultValue, s)

/-- `StorageManager.getItem`: cache first, then localStorage, else the
default. -/
def getItem {α : Type} (s : MgrState α) (defaultValue : α) : α × MgrState α :=
  match s.cache with
  | some c =>
      if isValidData s.now c then (c.value, s)
      else getItemStoreStep { s with cache := none } defaultValue
  | none => getItemStoreStep s defaultValue

/-- The persisted `DiagnosticRequest` record, with the field names the
source uses (`fileSize`, `fileType`, `error`). -/
structure DiagnosticRequest where
  id : String
  timestamp : String
  status : String
  filename : String
  fileSize : Nat
  fileType : String
  imageData : Option String
  apiKey : String
  note : String
  progress : Nat
  report : Option String
  error : Option String
  lastUpdated : Option String := none
deriving Repr, DecidableEq

/-- `RequestStorage.loadRequests`: `getItem(requestsKey, [])`. -/
def loadRequests (s : MgrState (List DiagnosticRequest)) :
    List DiagnosticRequest × MgrState (List DiagnosticRequest) :=
  getItem s []

/-- `RequestStorage.saveRequests`: `setItem(requestsKey, requests, {version: 2})`,
propagating the write outcome. -/
def saveRequests (s : MgrState (List DiagnosticRequest))
    (reqs : List DiagnosticRequest) (writeOk : Bool) :
    Bool × MgrState (List DiagnosticRequest) :=
  setItem s reqs none 2 writeOk

/-- The replace-or-unshift step of `RequestStorage.saveRequest`. -/
def upsertRequest (reqs : List DiagnosticRequest) (r : DiagnosticRequest) :
    List DiagnosticRequest :=
  match reqs.findIdx? (fun x => x.id == r.id) with
  | some i => reqs.set i r
  | none => r :: reqs

/-- `RequestStorage.saveRequest`: load, replace-or-unshift, save; returns
`saveRequests`' success boolean alongside the new state. -/
def saveRequest (s : MgrState (List DiagnosticRequest)) (r : DiagnosticRequest)
    (writeOk : Bool) : Bool × MgrState (List DiagnosticRequest) :=
  let p := loadRequests s
  saveRequests p.2 (upsertRequest p.1 r) writeOk

/-- `RequestStorage.getRequest`: find by id, `null` when absent. -/
def getRequest (s : MgrState (List DiagnosticRequest)) (rid : String) :
    Option DiagnosticRequest × MgrState (List DiagnosticRequest) :=
  let p := loadRequests s
  (p.1.find? (fun x => x.id == rid), p.2)

/-! ## Mock processing pipeline (`MedicalApp`, `src/js/mock-api.js`) -/

/-- `MedicalApp.createRequest`: the fresh record for a submitted form. -/
def createRequest (rid tsIso filename : String) (fileSize : Nat)
    (fileType apiKey note : String) : DiagnosticRequest :=
  { id := rid, timestamp := tsIso, status := "pending", filename := filename,
    fileSize := fileSize, fileType := fileType, imageData := none,
    apiKey := apiKey, note := note, progress := 0, report := none, error := none }

/-- One entry of the `steps` array of `startMockProcessing`. -/
structure ProcStep where
  progress : Nat
  status : String
  message : String
deriving Repr, DecidableEq

/-- The `steps` array of `startMockProcessing`. -/
def mockSteps : List ProcStep :=
  [⟨10, "uploading", "Uploading image..."⟩,
   ⟨30, "processing", "Analyzing image..."⟩,
   ⟨60, "processing", "Running AI diagnostics..."⟩,
   ⟨85, "processing", "Generating report..."⟩,
   ⟨100, "completed", "Analysis complete!"⟩]

/-- One interval tick of `startMockProcessing`: copy the step's progress
and status onto the request (the request is saved to storage in this state
by `updateRequestCard`). -/
def applyStep (st : ProcStep) (r : DiagnosticRequest) : DiagnosticRequest :=
  { r with progress := st.progress, status := st.status }

/-- `MedicalApp.completeRequest`: status and progress are set first, then
the report is generated from the (now completed) request. -/
def completeRequest (r : DiagnosticRequest) (rnd : Randoms) (env : DateEnv) :
    DiagnosticRequest :=
  let r1 := { r with status := "completed", progress := 100 }
  { r1 with report := some (generateMedicalReport
      { id := r1.id, filename := r1.filename, timestamp := r1.timestamp,
        status := some r1.status } rnd env) }

/-- The whole `startMockProcessing` run to quiescence: all five interval
ticks followed by the final `completeRequest` tick. -/
def runMockProcessing (r : DiagnosticRequest) (rnd : Randoms) (env : DateEnv) :
    DiagnosticRequest :=
  completeRequest (mockSteps.foldl (fun acc st => applyStep st acc) r) rnd env

/-- One record of `MockAPI.generateSampleRequests` (the drawn status is the
`status` argument; the report descriptor id `REQ-<index>` is
`reportReqId`). -/
def sampleRequest (rid tsIso status filename : String) (fileSize : Nat)
    (apiKey note : String) (progressDraw : ℚ) (reportReqId : String)
    (rnd : Randoms) (env : DateEnv) (imageData : String) : DiagnosticRequest :=
  { id := rid, timestamp := tsIso, status := status, filename := filename,
    fileSize := fileSize, fileType := "image/jpeg", imageData := some imageData,
    apiKey := apiKey, note := note,
    progress := if status = "completed" then 100
                else if status = "failed" then 0
                else jsFloorScaled progressDraw 90 + 10,
    report := if status = "completed" then
                some (generateMedicalReport
                  { id := reportReqId, filename := filename, timestamp := tsIso } rnd env)
              else none,
    error := if status = "failed" then
               some "Processing failed due to poor image quality"
             else none }

/-- The `additionalData` argument of `RequestStorage.updateRequestStatus`:
`Object.assign` overwrites exactly the fields that are present. -/
structure UpdateData where
  report : Option (Option String) := none
  error : Option (Option String) := none
  progress : Option Nat := none
deriving Repr, DecidableEq

/-- `RequestStorage.updateRequestStatus` restricted to the matched record:
set the status and `lastUpdated`, then `Object.assign` the extra fields. -/
def updateRequestStatus (r : DiagnosticRequest) (status lastUpdated : String)
    (d : UpdateData) : DiagnosticRequest :=
  { r with status := status, lastUpdated := some lastUpdated,
           report := d.report.getD r.report,
           error := d.error.getD r.error,
           progress := d.progress.getD r.progress }

/-- The spec's request invariant: completed implies a report, failed
implies an error message. -/
def reqInvariant (r : DiagnosticRequest) : Prop :=
  (r.status = "completed" → r.report ≠ none) ∧
  (r.status = "failed" → r.error ≠ none)

instance (r : DiagnosticRequest) : Decidable (reqInvariant r) := by
  unfold reqInvariant
  infer_instance

/-! ## Shared concrete inputs for witnesses and counterexamples -/

/-- Concrete draws, all one half. -/
def halfRandoms : Randoms :=
  ⟨1/2, 1/2, 1/2, 1/2, 1/2, 1/2, 1/2, 1/2, 1/2, 1/2, 1/2, 1/2, 1/2⟩

/-- Concrete date environment. -/
def sampleEnv : DateEnv :=
  { reportDate := "1/1/2025", currentDate := "1/2/2025",
    currentTime := "10:00:00 AM", nowIso := "2025-01-02T10:00:00.000Z" }

/-- Concrete report descriptor. -/
def sampleReq : ReportRequest :=
  { id := "REQ-1", filename := "scan.png", timestamp := "2025-01-01T00:00:00.000Z" }

/-- A concrete request for the store round-trip scenarios. -/
def sampleStoredRequest : DiagnosticRequest :=
  createRequest "REQ-1" "2025-01-01T00:00:00.000Z" "scan.png" 1024 "image/png" "key" ""

/-- C6: the connectivity prober never throws.  For every behaviour of the
underlying fetch transport — each of the two fetches independently resolving
(with any status) or rejecting (with any message, including an abort on
timeout) — `testConnectivity` returns a `ConnResult` instead of propagating
an exception: the strategy-loop `catch` swallows the first two strategies'
errors and routes the last strategy's error to `handleConnectivityError`,
which is total. -/
theorem c6_prober_never_throws (t : ProbeTransport) :
    resolvesOk (testConnectivity t) = true := by
  cases t with
  | mk ch ncr =>
    cases ch <;> cases ncr <;>
      simp [testConnectivity, testWithCORS, connStep2, testWithNoCORS, connStep3,
        testWithProxy, resolvesOk]

/-- C1 (code bug): on a transport whose every fetch rejects with a
certificate error (`net::ERR_CERT_AUTHORITY_INVALID`), `testConnectivity`
does NOT return an `sslError` classification.  The loop hands
`handleConnectivityError` only the error of the LAST strategy, and the last
strategy (`testWithProxy`) unconditionally throws
`'Proxy strategy not implemented'`, which matches no certificate or CORS
pattern — so the result is the generic network-error object (with
`sslError := false` by construction), even though `isSSLError` does
recognise the transport's message.  The SSL/CORS classification of actual
fetch failures is unreachable through `testConnectivity`. -/
theorem c1_cert_transport_classified_as_generic :
    isSSLError "TypeError: Failed to fetch (net::ERR_CERT_AUTHORITY_INVALID)" = true ∧
    testConnectivity certFailTransport =
      .ok { success := false, error := some "Proxy strategy not implemented",
            available := false } := by
  constructor
  · decide
  · decide

/-- C10: classification precedence and case sensitivity of
`handleConnectivityError`.  (1) Any message recognised by `isSSLError` is
classified as the SSL result — the SSL check runs before the CORS check, so
a message matching both patterns (the second conjunct exhibits one) is
classified SSL.  (2) SSL matching is case-insensitive: the lower-cased
certificate message is still recognised.  (3) CORS matching is
case-sensitive: a message containing only lower-case `cors` matches neither
`isCORSError` nor `isSSLError` and is classified as the generic network
error. -/
theorem c10_precedence_and_case_sensitivity :
    (∀ msg, isSSLError msg = true →
      handleConnectivityError msg =
        { success := false, error := some "SSL Certificate Error - User guidance provided",
          available := false, sslError := true, needsSSLFix := true }) ∧
    isSSLError "ERR_CERT_AUTHORITY_INVALID: request blocked by CORS policy" = true ∧
    isCORSError "ERR_CERT_AUTHORITY_INVALID: request blocked by CORS policy" = true ∧
    isSSLError "net::err_cert_authority_invalid" = true ∧
    isCORSError "request blocked by cors policy" = false ∧
    isSSLError "request blocked by cors policy" = false ∧
    handleConnectivityError "request blocked by cors policy" =
      { success := false, error := some "request blocked by cors policy",
        available := false } := by
  refine ⟨fun msg h => ?_, by decide, by decide, by decide, by decide, by decide, by decide⟩
  simp [handleConnectivityError, h]

/-- Witness for C10: the universally quantified precedence statement applied
to a concrete message matching both an SSL and a CORS pattern. -/
theorem c10_witness :
    handleConnectivityError "ERR_CERT_AUTHORITY_INVALID: request blocked by CORS policy" =
      { success := false, error := some "SSL Certificate Error - User guidance provided",
        available := false, sslError := true, needsSSLFix := true } :=
  c10_precedence_and_case_sensitivity.1
    "ERR_CERT_AUTHORITY_INVALID: request blocked by CORS policy" (by decide)

/-- C3 counterexample: from a fresh client, the schedule in which the second
`initializeAPIMode` call starts before the first call's probe resolves
triggers TWO connectivity probes, not one.  `initializeAPIMode` has no
in-flight-promise cache: the second caller finds `useRealAPI` still `null`
(it is only assigned after the first probe resolves) and starts its own
`testConnectivity`. -/
theorem c3_two_probes_counterexample :
    (runRace certFailTransport concurrentSchedule freshRace).shared.probeCount = 2 ∧
    ¬ (runRace certFailTransport concurrentSchedule freshRace).shared.probeCount = 1 := by
  decide

/-- C3 (amended): for every transport behaviour, two concurrent
`initializeAPIMode` calls — the second starting before the first call's
probe resolves — trigger exactly two connectivity probes, one per caller
(under either delivery order of the two probe results), and both callers
complete with a boolean.  There is no deduplication of in-flight probes;
only the completed decision is cached. -/
theorem c3_concurrent_calls_probe_twice (t : ProbeTransport) :
    (runRace t concurrentSchedule freshRace).shared.probeCount = 2 ∧
    (∃ b, (runRace t concurrentSchedule freshRace).taskA = .done b) ∧
    (∃ b, (runRace t concurrentSchedule freshRace).taskB = .done b) ∧
    (runRace t [.startA, .startB, .resolveB, .resolveA] freshRace).shared.probeCount = 2 := by
  cases ht : testConnectivity t <;>
    simp [runRace, concurrentSchedule, raceStep, startCall, resumeCall, freshRace, ht]

/-- C7: the real-vs-mock decision is sticky in sequential use.  A first
completed `initializeAPIMode` call on a client whose decision is still
`null` runs exactly one probe and caches the returned boolean in
`useRealAPI`; any subsequent sequential call — against any transport —
returns the cached boolean and leaves the state untouched (in particular it
never invokes `testConnectivity` again: the probe count is unchanged). -/
theorem c7_decision_sticky_sequentially (t : ProbeTransport) (s : HState)
    (h : s.useRealAPI = none) :
    (initializeAPIMode t s).2.probeCount = s.probeCount + 1 ∧
    (initializeAPIMode t s).2.useRealAPI = some (initializeAPIMode t s).1 ∧
    ∀ t2, initializeAPIMode t2 (initializeAPIMode t s).2 =
      ((initializeAPIMode t s).1, (initializeAPIMode t s).2) := by
  cases ht : testConnectivity t <;>
    simp [initializeAPIMode, h, ht]

/-- Witness for C7 at a concrete fresh state and transport. -/
theorem c7_witness :
    (initializeAPIMode certFailTransport ⟨none, 0⟩).2.probeCount = 1 ∧
    initializeAPIMode certFailTransport (initializeAPIMode certFailTransport ⟨none, 0⟩).2 =
      ((initializeAPIMode certFailTransport ⟨none, 0⟩).1,
       (initializeAPIMode certFailTransport ⟨none, 0⟩).2) := by
  have h := c7_decision_sticky_sequentially certFailTransport ⟨none, 0⟩ rfl
  exact ⟨h.1, h.2.2 certFailTransport⟩

/-- Appending strings concatenates their character data. -/
theorem strData_append (a b : String) : (a ++ b).data = a.data ++ b.data := rfl

/-- A segment of a list occurs in the list's concatenation. -/
theorem strConcat_contains_idx (l : List String) (i : Nat) (x : String)
    (h : l[i]? = some x) : StrContains (strConcat l) x := by
  induction l generalizing i with
  | nil => simp at h
  | cons a tl ih =>
    cases i with
    | zero =>
      simp at h
      subst h
      exact ⟨[], (strConcat tl).data, by simp [strConcat, strData_append]⟩
    | succ n =>
      simp at h
      obtain ⟨u, v, huv⟩ := ih n h
      exact ⟨a.data ++ u, v, by simp [strConcat, strData_append, huv]⟩

/-- Bounds on a half-up rounding at the fourth decimal. -/
theorem round4_bounds {x : ℚ} {a b : ℤ}
    (h1 : (a : ℚ) ≤ x * 10000 + 1/2) (h2 : x * 10000 + 1/2 < (b : ℚ) + 1) :
    (a : ℚ) / 10000 ≤ round4 x ∧ round4 x ≤ (b : ℚ) / 10000 := by
  unfold round4
  constructor
  · have hf : a ≤ ⌊x * 10000 + 1/2⌋ := Int.le_floor.mpr h1
    have hc : (a : ℚ) ≤ (⌊x * 10000 + 1/2⌋ : ℚ) := by exact_mod_cast hf
    exact (div_le_div_iff_of_pos_right (by norm_num)).mpr hc
  · have hf : ⌊x * 10000 + 1/2⌋ < b + 1 := Int.floor_lt.mpr (by push_cast; linarith)
    have hle : ⌊x * 10000 + 1/2⌋ ≤ b := by omega
    have hc : ((⌊x * 10000 + 1/2⌋ : ℤ) : ℚ) ≤ (b : ℚ) := by exact_mod_cast hle
    exact (div_le_div_iff_of_pos_right (by norm_num)).mpr hc

/-- C9: for every request descriptor, date environment and draws in
`[0,1)`, `generateMedicalReport` delegates to `generateDiagnosticReport`,
whose rendered probability scores (after `toFixed(4)` rounding) lie in
their documented ranges — benign in [0.85, 1.0], malignant in [0.70, 1.0],
inflammatory in [0.0, 0.1], artefactual in [0.0, 0.05] — and whose output
contains every required markdown section header of the diagnostic
template. -/
theorem c9_generator_ranges_and_headers (req : ReportRequest) (r : Randoms)
    (env : DateEnv) (h : RandomsInRange r) :
    generateMedicalReport req r env = generateDiagnosticReport req r env ∧
    (0.85 ≤ round4 (benignRaw r) ∧ round4 (benignRaw r) ≤ 1) ∧
    (0.7 ≤ round4 (malignantRaw r) ∧ round4 (malignantRaw r) ≤ 1) ∧
    (0 ≤ round4 (inflammatoryRaw r) ∧ round4 (inflammatoryRaw r) ≤ 0.1) ∧
    (0 ≤ round4 (artefactualRaw r) ∧ round4 (artefactualRaw r) ≤ 0.05) ∧
    ∀ hdr ∈ requiredHeaders, StrContains (generateMedicalReport req r env) hdr := by
  obtain ⟨⟨hb0, hb1⟩, ⟨hm0, hm1⟩, ⟨hi0, hi1⟩, ⟨ha0, ha1⟩, _⟩ := h
  refine ⟨rfl, ?_, ?_, ?_, ?_, ?_⟩
  · have hb := round4_bounds (x := benignRaw r) (a := 8500) (b := 10000)
      (by unfold benignRaw; push_cast; ring_nf; linarith) (by unfold benignRaw; push_cast; ring_nf; linarith)
    constructor
    · have h1 := hb.1
      norm_num at h1 ⊢
      linarith
    · have h1 := hb.2
      norm_num at h1 ⊢
      linarith
  · have hb := round4_bounds (x := malignantRaw r) (a := 7000) (b := 10000)
      (by unfold malignantRaw; push_cast; ring_nf; linarith) (by unfold malignantRaw; push_cast; ring_nf; linarith)
    constructor
    · have h1 := hb.1
      norm_num at h1 ⊢
      linarith
    · have h1 := hb.2
      norm_num at h1 ⊢
      linarith
  · have hb := round4_bounds (x := inflammatoryRaw r) (a := 0) (b := 1000)
      (by unfold inflammatoryRaw; push_cast; ring_nf; linarith)
      (by unfold inflammatoryRaw; push_cast; ring_nf; linarith)
    constructor
    · have h1 := hb.1
      norm_num at h1 ⊢
      linarith
    · have h1 := hb.2
      norm_num at h1 ⊢
      linarith
  · have hb := round4_bounds (x := artefactualRaw r) (a := 0) (b := 500)
      (by unfold artefactualRaw; push_cast; ring_nf; linarith)
      (by unfold artefactualRaw; push_cast; ring_nf; linarith)
    constructor
    · have h1 := hb.1
      norm_num at h1 ⊢
      linarith
    · have h1 := hb.2
      norm_num at h1 ⊢
      linarith
  · intro hdr hmem
    simp only [requiredHeaders, List.mem_cons, List.not_mem_nil, or_false] at hmem
    rcases hmem with rfl | rfl | rfl | rfl | rfl | rfl | rfl | rfl | rfl | rfl | rfl
    · exact strConcat_contains_idx (reportSegments req r env) 0 _ rfl
    · exact strConcat_contains_idx (reportSegments req r env) 2 _ rfl
    · exact strConcat_contains_idx (reportSegments req r env) 14 _ rfl
    · exact strConcat_contains_idx (reportSegments req r env) 24 _ rfl
    · exact strConcat_contains_idx (reportSegments req r env) 30 _ rfl
    · exact strConcat_contains_idx (reportSegments req r env) 38 _ rfl
    · exact strConcat_contains_idx (reportSegments req r env) 42 _ rfl
    · exact strConcat_contains_idx (reportSegments req r env) 46 _ rfl
    · exact strConcat_contains_idx (reportSegments req r env) 54 _ rfl
    · exact strConcat_contains_idx (reportSegments req r env) 56 _ rfl
    · exact strConcat_contains_idx (reportSegments req r env) 60 _ rfl

/-- Witness for C9 at concrete draws, descriptor and dates. -/
theorem c9_witness :
    (0.85 ≤ round4 (benignRaw halfRandoms) ∧ round4 (benignRaw halfRandoms) ≤ 1) ∧
    StrContains (generateMedicalReport sampleReq halfRandoms sampleEnv) "## Findings" := by
  have h := c9_generator_ranges_and_headers sampleReq halfRandoms sampleEnv
    (by norm_num [RandomsInRange, halfRandoms])
  exact ⟨h.2.1, h.2.2.2.2.2 "## Findings" (by decide)⟩

/-- The upsert of `RequestStorage.saveRequest` puts `r` where a find by
`r.id` returns it: either it replaced the first match or it was consed to
the front. -/
theorem find?_upsertRequest (reqs : List DiagnosticRequest) (r : DiagnosticRequest) :
    (upsertRequest reqs r).find? (fun x => x.id == r.id) = some r := by
  induction reqs with
  | nil =>
    show List.find? _ [r] = some r
    rw [List.find?_cons]
    simp
  | cons a tl ih =>
    by_cases ha : (a.id == r.id) = true
    · have hu : upsertRequest (a :: tl) r = r :: tl := by
        rw [upsertRequest, List.findIdx?_cons]
        simp [ha]
      rw [hu, List.find?_cons]
      simp
    · cases hidx : List.findIdx? (fun x => x.id == r.id) tl 0 with
      | none =>
        have hu : upsertRequest (a :: tl) r = r :: a :: tl := by
          rw [upsertRequest, List.findIdx?_cons]
          simp [ha, List.findIdx?_succ, hidx]
        rw [hu, List.find?_cons]
        simp
      | some i =>
        have hu : upsertRequest (a :: tl) r = a :: tl.set i r := by
          rw [upsertRequest, List.findIdx?_cons]
          simp [ha, List.findIdx?_succ, hidx]
        have h2 := ih
        rw [upsertRequest, hidx] at h2
        rw [hu, List.find?_cons]
        simp only [ha]
        exact h2

/-- C8 counterexample: when the persistent write throws (quota exceeded —
`localStorage.setItem` raising inside `setItem`'s `try`), `saveRequest`
returns `false` and the cache update is skipped, so the immediately
following `getRequest` does not see the request: on an available store
holding nothing, the reload returns `null`, not an object deep-equal to
the saved record. -/
theorem c8_quota_throw_breaks_roundtrip :
    (saveRequest ⟨none, none, true, 0⟩ sampleStoredRequest false).1 = false ∧
    (getRequest (saveRequest ⟨none, none, true, 0⟩ sampleStoredRequest false).2
        sampleStoredRequest.id).1 = none ∧
    ¬ (getRequest (saveRequest ⟨none, none, true, 0⟩ sampleStoredRequest false).2
        sampleStoredRequest.id).1 = some sampleStoredRequest := by
  refine ⟨by decide, by decide, by decide⟩

/-- C8 (amended): whenever `saveRequest` reports success — the persistent
write did not throw, or localStorage is unavailable and the store is
cache-only — reloading by id yields exactly the saved request, from any
prior store state: the freshly written envelope carries no expiry, so the
reload answers from the just-updated cache, and the find-by-id hits the
upserted record.  When the write throws, `saveRequest` returns `false`
and the store keeps its previous content (the counterexample). -/
theorem c8_successful_save_roundtrip (s : MgrState (List DiagnosticRequest))
    (r : DiagnosticRequest) (writeOk : Bool)
    (h : (saveRequest s r writeOk).1 = true) :
    (getRequest (saveRequest s r writeOk).2 r.id).1 = some r := by
  unfold saveRequest saveRequests setItem at h ⊢
  by_cases ha : (loadRequests s).2.isAvailable
  · cases writeOk with
    | false => simp [ha] at h
    | true =>
      simp only [ha, if_true]
      unfold getRequest loadRequests getItem isValidData
      simp [find?_upsertRequest]
  · simp only [ha, if_false]
    unfold getRequest loadRequests getItem isValidData
    simp [find?_upsertRequest]

/-- Witness for C8 at a concrete fresh available store whose write
succeeds. -/
theorem c8_witness :
    (getRequest (saveRequest ⟨none, none, true, 0⟩ sampleStoredRequest true).2
        sampleStoredRequest.id).1 = some sampleStoredRequest :=
  c8_successful_save_roundtrip ⟨none, none, true, 0⟩ sampleStoredRequest true (by decide)

/-- C5 counterexample: a file with an EMPTY declared mime type — which is
not one of the four allowed types — is NOT rejected before the network
phase: the validation's mime check is guarded by `if (file.type)`, so the
empty string skips it, all three request strategies run (three fetches),
and the call fails only afterwards with the rewrapped network error of the
last strategy. -/
theorem c5_empty_mime_reaches_network :
    (realAnalyzeBreastDensity (.blob (some "scan.raw") 1024 "") "REQ-1"
      rejectAllTransport "2025-01-02T10:00:00.000Z").2 = 3 ∧
    (realAnalyzeBreastDensity (.blob (some "scan.raw") 1024 "") "REQ-1"
      rejectAllTransport "2025-01-02T10:00:00.000Z").1 =
      .error (mkError "Network error: Unable to connect to analysis service. This may be due to network connectivity or server issues.") := by
  constructor
  · decide
  · decide

/-- C5 (amended): every file exceeding 50MB, and every file whose declared
mime type is NON-EMPTY and not one of `image/jpeg`, `image/jpg`,
`image/png`, `application/dicom`, is rejected by
`RealBreastDensityAPI.analyzeBreastDensity` during validation: the call
throws and zero fetches are performed, for every transport behaviour.  (A
file with an empty declared type skips the mime check — the
counterexample.) -/
theorem c5_validation_rejects_before_fetch
    (name : Option String) (size : Nat) (mime : String) (requestId : String)
    (t : AnalyzeTransport) (nowIso : String)
    (h : size > 50 * 1024 * 1024 ∨ (mime ≠ "" ∧ mime ∉ allowedTypes)) :
    (realAnalyzeBreastDensity (.blob name size mime) requestId t nowIso).2 = 0 ∧
    ∃ e, (realAnalyzeBreastDensity (.blob name size mime) requestId t nowIso).1 =
      Except.error e := by
  rcases h with hsz | ⟨hm1, hm2⟩
  · have h0 : ¬ size = 0 := by omega
    simp [realAnalyzeBreastDensity, validateAndRun, h0, hsz]
  · by_cases h0 : size = 0
    · simp [realAnalyzeBreastDensity, validateAndRun, h0]
    · by_cases hsz : size > 50 * 1024 * 1024
      · simp [realAnalyzeBreastDensity, validateAndRun, h0, hsz]
      · simp [realAnalyzeBreastDensity, validateAndRun, h0, hsz, hm1, hm2]

/-- Witness for C5 at a concrete oversized PNG and a concrete transport. -/
theorem c5_witness :
    (realAnalyzeBreastDensity (.blob (some "big.png") 52428801 "image/png") "REQ-1"
      rejectAllTransport "2025-01-02T10:00:00.000Z").2 = 0 ∧
    ∃ e, (realAnalyzeBreastDensity (.blob (some "big.png") 52428801 "image/png") "REQ-1"
      rejectAllTransport "2025-01-02T10:00:00.000Z").1 = Except.error e :=
  c5_validation_rejects_before_fetch (some "big.png") 52428801 "image/png" "REQ-1"
    rejectAllTransport "2025-01-02T10:00:00.000Z" (Or.inl (by norm_num))

/-- C2 counterexample: with the real path enabled, the hybrid client
called with NO file resolves with a mock-tagged result — it does not raise
the malformed-input precondition failure to the caller: the validation
error thrown by the real client is swallowed by the hybrid `catch` into
the mock fallback. -/
theorem c2_no_file_resolves_with_mock :
    hybridOutcomeType (hybridAnalyzeBreastDensity ⟨some true, 1⟩ certFailTransport
      .noFile "REQ-1" rejectAllTransport halfRandoms sampleEnv).1 = some "mock" := by
  decide

/-- C2 (amended): `HybridBreastDensityAPI.analyzeBreastDensity` never
rejects, for ANY input — malformed inputs (no file, invalid file object)
included — and any transport behaviour: it always resolves with a result
tagged `pdf` or `mock`, the mock generator being the universal fallback
for every failure (SSL, CORS, network, timeout, server JSON error, and
validation errors alike). -/
theorem c2_hybrid_always_resolves (s : HState) (pt : ProbeTransport) (f : FileInput)
    (requestId : String) (t : AnalyzeTransport) (rnd : Randoms) (env : DateEnv) :
    ∃ hr, (hybridAnalyzeBreastDensity s pt f requestId t rnd env).1 = .ok hr ∧
      (hr.type = "pdf" ∨ hr.type = "mock") := by
  unfold hybridAnalyzeBreastDensity
  by_cases hp : (initializeAPIMode pt s).1
  · simp only [hp, if_true]
    cases hreal : (realAnalyzeBreastDensity f requestId t env.nowIso).1 with
    | ok r =>
      by_cases hs : (r.success && r.type == "pdf") = true
      · refine ⟨{ success := true, type := "pdf", requestId := r.requestId,
                  message := "Analysis completed successfully",
                  meta := { originalFilename := r.originalFilename,
                            generationTime := r.generationTime,
                            modelName := r.modelName, size := r.pdfSize } },
          by simp [hreal, hs], Or.inl rfl⟩
      · refine ⟨generateMockResponse f requestId r.error rnd env,
          by simp [hreal, hs], Or.inr rfl⟩
    | error e =>
      refine ⟨generateMockResponse f requestId (some e.message) rnd env,
        by simp [hreal], Or.inr rfl⟩
  · simp only [hp]
    refine ⟨generateMockResponse f requestId none rnd env, by simp, Or.inr rfl⟩

/-- C4 counterexample: the fifth step of `startMockProcessing` sets
`status := 'completed'` on the freshly created request while its report is
still null — `completeRequest` only attaches the report one interval tick
later — so the request violates the completed-implies-report invariant in
between (and `updateRequestCard` persists it to storage in that state). -/
theorem c4_fifth_step_breaks_invariant :
    (applyStep (mockSteps.getD 4 ⟨0, "", ""⟩)
      (createRequest "REQ-1" "2025-01-01T00:00:00.000Z" "scan.png" 1024 "image/png" "key" "")).status
        = "completed" ∧
    (applyStep (mockSteps.getD 4 ⟨0, "", ""⟩)
      (createRequest "REQ-1" "2025-01-01T00:00:00.000Z" "scan.png" 1024 "image/png" "key" "")).report
        = none ∧
    ¬ reqInvariant (applyStep (mockSteps.getD 4 ⟨0, "", ""⟩)
      (createRequest "REQ-1" "2025-01-01T00:00:00.000Z" "scan.png" 1024 "image/png" "key" "")) := by
  refine ⟨by decide, by decide, by decide⟩

/-- C4 (amended): the invariant — completed implies a report, failed
implies an error message — is established by request creation and by
sample-data generation, preserved by the first four mock-processing steps,
(re-)established unconditionally by `completeRequest` and hence by a full
mock-processing run, and preserved by `updateRequestStatus` whenever the
additional data supplies the field the new status requires.  The one
exception, forced by the counterexample, is the fifth mock-processing step,
which sets `completed` one tick before the report is attached. -/
theorem c4_invariant_amended :
    (∀ rid ts fn fs ft ak nt, reqInvariant (createRequest rid ts fn fs ft ak nt)) ∧
    (∀ st ∈ mockSteps.take 4, ∀ r, reqInvariant r → reqInvariant (applyStep st r)) ∧
    (∀ r rnd env, reqInvariant (completeRequest r rnd env)) ∧
    (∀ r rnd env, reqInvariant (runMockProcessing r rnd env)) ∧
    (∀ rid ts st fn fs ak nt pd rrid rnd env img,
      reqInvariant (sampleRequest rid ts st fn fs ak nt pd rrid rnd env img)) ∧
    (∀ r st lu d, reqInvariant r →
      (st = "completed" → d.report.getD r.report ≠ none) →
      (st = "failed" → d.error.getD r.error ≠ none) →
      reqInvariant (updateRequestStatus r st lu d)) := by
  have hcomp : ∀ r rnd env, reqInvariant (completeRequest r rnd env) := by
    intro r rnd env
    exact ⟨fun _ => by simp [completeRequest], fun h => by simp [completeRequest] at h⟩
  refine ⟨?_, ?_, hcomp, ?_, ?_, ?_⟩
  · intro rid ts fn fs ft ak nt
    exact ⟨fun h => by simp [createRequest] at h, fun h => by simp [createRequest] at h⟩
  · intro st hmem r hr
    fin_cases hmem
    · exact ⟨fun h => by simp [applyStep] at h, fun h => by simp [applyStep] at h⟩
    · exact ⟨fun h => by simp [applyStep] at h, fun h => by simp [applyStep] at h⟩
    · exact ⟨fun h => by simp [applyStep] at h, fun h => by simp [applyStep] at h⟩
    · exact ⟨fun h => by simp [applyStep] at h, fun h => by simp [applyStep] at h⟩
  · intro r rnd env
    exact hcomp _ rnd env
  · intro rid ts st fn fs ak nt pd rrid rnd env img
    constructor
    · intro h
      have hst : st = "completed" := h
      simp [sampleRequest, hst]
    · intro h
      have hst : st = "failed" := h
      simp [sampleRequest, hst]
  · intro r st lu d hinv h1 h2
    exact ⟨fun hc => h1 hc, fun hc => h2 hc⟩

/-- Witness for C4 at a concrete step and request. -/
theorem c4_witness :
    reqInvariant (applyStep ⟨10, "uploading", "Uploading image..."⟩
      (createRequest "R" "t" "f.png" 1 "image/png" "k" "")) :=
  c4_invariant_amended.2.1 ⟨10, "uploading", "Uploading image..."⟩ (by decide)
    (createRequest "R" "t" "f.png" 1 "image/png" "k" "") (by decide)
